import Mathlib

/-!
# Verification of the flood-detection raster/road analysis core

Shallow embedding of the algorithmic core of `src/App.tsx` from the
`flood-detection-react` repository: the raster mask decoder inside
`handleFileChange`, the road impact classifier `analyzeRoadImpact`, and the
area estimator `calculateFloodArea`.

JavaScript numbers are modelled by exact rationals (`ℚ`).  The one place the
difference between IEEE doubles and `ℚ` is semantically essential — division
by a zero bounding-box extent, which in JavaScript produces `NaN`/`±Infinity`
so that every subsequent `idx >= 0 && idx < len` comparison is `false` — is
modelled explicitly by the `degenerateBounds` branch in the classifier, which
yields no contribution for such a vertex, exactly as the `NaN` propagation
does in the source.
-/

namespace FloodDetection

/-- Metadata of the uploaded GeoTIFF, from the `ImageMetadata` interface and
the `metadata` object built in `handleFileChange` (`App.tsx`).  The source
stores the bounding box as an array `bounds = [minX, minY, maxX, maxY]` and
the resolution as a pair `resolution = [resX, resY]`; here those arrays are
flattened into named fields. -/
structure ImageMetadata where
  width : ℕ
  height : ℕ
  minX : ℚ
  minY : ℚ
  maxX : ℚ
  maxY : ℚ
  crs : String
  resX : ℚ
  resY : ℚ
  deriving DecidableEq, Repr

/-- A Leaflet `LatLng` vertex of a road polyline, as returned by
`layer.getLatLngs()`. -/
structure GeoPoint where
  lat : ℚ
  lng : ℚ
  deriving DecidableEq, Repr

/-- A GeoJSON road feature as far as `analyzeRoadImpact` inspects it: the
geometry type string (`layer.feature.geometry.type`) and the vertex list
(`layer.getLatLngs()`).  The `id` field stands for the feature's identifying
properties, which the classifier never reads. -/
structure Feature where
  id : ℕ
  geomType : String
  points : List GeoPoint
  deriving DecidableEq, Repr

/-- Classification outcome of one road feature: pushed to
`affectedRoadsList`, pushed to `nearFloodRoadsList`, or left alone. -/
inductive Outcome where
  | inHazard
  | nearHazard
  | unaffected
  deriving DecidableEq, Repr

/-- Band-0 raster data as returned by `image.readRasters()`: either a bare
scalar (the `typeof bandData === 'number'` branch) or a dense numeric
array. -/
inductive BandData where
  | scalar (v : ℚ)
  | arr (xs : List ℚ)
  deriving DecidableEq, Repr

/-- The mask decode loop of `handleFileChange` (`App.tsx` lines 228–235):
for a non-scalar band, `floodMaskArray[i] = bandData[i] === 1 ? 1 : 0`;
for a scalar band no mask is produced (`setFloodPixelData` is not called). -/
def decodeFloodMask : BandData → Option (List ℕ)
  | .scalar _ => none
  | .arr xs => some (xs.map fun x => if x = 1 then 1 else 0)

/-- `floodBounds.contains(point)`: Leaflet's `LatLngBounds.contains` is an
inclusive comparison against the south-west corner `(minY, minX)` and the
north-east corner `(maxY, maxX)`. -/
def containsPoint (md : ImageMetadata) (p : GeoPoint) : Bool :=
  decide (md.minX ≤ p.lng) && decide (p.lng ≤ md.maxX) &&
  decide (md.minY ≤ p.lat) && decide (p.lat ≤ md.maxY)

/-- `pixelX = Math.floor(normalizedX * metadata.width)` with
`normalizedX = (point.lng - bounds[0]) / (bounds[2] - bounds[0])`
(`App.tsx` lines 335, 338). -/
def pixelX (md : ImageMetadata) (p : GeoPoint) : ℤ :=
  ⌊(p.lng - md.minX) / (md.maxX - md.minX) * md.width⌋

/-- `pixelY = Math.floor(normalizedY * metadata.height)` with
`normalizedY = 1 - (point.lat - bounds[1]) / (bounds[3] - bounds[1])`
(`App.tsx` lines 336, 339). -/
def pixelY (md : ImageMetadata) (p : GeoPoint) : ℤ :=
  ⌊(1 - (p.lat - md.minY) / (md.maxY - md.minY)) * md.height⌋

/-- Zero-width or zero-height bounding box.  In the source there is no such
test: the divisions in `normalizedX`/`normalizedY` are performed regardless
and produce `NaN` (or `±Infinity`), under which every later flat-index range
check is `false`.  The embedding's classifier branches on this predicate to
model that `NaN` propagation. -/
def degenerateBounds (md : ImageMetadata) : Bool :=
  decide (md.maxX = md.minX) || decide (md.maxY = md.minY)

/-- The pixel probe used both for the direct hit test (`App.tsx` line 345)
and for `checkNearby` (lines 351–354): compute the flat index
`idx = y * metadata.width + x` and test
`idx >= 0 && idx < floodPixelData.length && floodPixelData[idx] === 1`.
Note the bound check is on the flat index only — `x` is never compared
against `[0, width)`, so an out-of-range `x` can address a cell of an
adjacent row. -/
def checkNearby (md : ImageMetadata) (data : List ℕ) (x y : ℤ) : Bool :=
  let idx : ℤ := y * (md.width : ℤ) + x
  decide (0 ≤ idx) && decide (idx < (data.length : ℤ)) &&
    decide (data.getD idx.toNat 0 = 1)

/-- The offsets `-bufferPixels .. bufferPixels` with `bufferPixels = 5`
iterated by the two nested `for` loops of the near-flood scan
(`App.tsx` lines 357–359). -/
def offsetRange : List ℤ :=
  (List.range 11).map fun i => (i : ℤ) - 5

/-- The near-flood scan around a vertex's pixel (`App.tsx` lines 356–366):
the double loop over `offsetRange` breaks out as soon as one probe succeeds,
which for the resulting boolean is `List.any`. -/
def nearScan (md : ImageMetadata) (data : List ℕ) (px py : ℤ) : Bool :=
  offsetRange.any fun dx => offsetRange.any fun dy =>
    checkNearby md data (px + dx) (py + dy)

/-- The per-feature vertex loop of `analyzeRoadImpact`
(`App.tsx` lines 330–367), with `near` accumulating `isNearFlood`:
  * a vertex outside `floodBounds` is skipped (`continue`);
  * with degenerate bounds the divisions yield `NaN`, so both the direct
    probe and every `checkNearby` probe are `false` — no contribution;
  * a successful direct probe sets `isInFlood` and breaks out of the loop;
  * otherwise the near scan may set `isNearFlood` and the loop continues.
After the loop, `isInFlood` is consulted before `isNearFlood`
(lines 370–376). -/
def classifyVertices (md : ImageMetadata) (data : List ℕ) :
    List GeoPoint → Bool → Outcome
  | [], near => if near then .nearHazard else .unaffected
  | p :: ps, near =>
    if !containsPoint md p then
      classifyVertices md data ps near
    else if degenerateBounds md then
      classifyVertices md data ps near
    else
      let px := pixelX md p
      let py := pixelY md p
      if checkNearby md data px py then
        .inHazard
      else
        classifyVertices md data ps (near || nearScan md data px py)

/-- Outcome of one layer of `roadsLayer.eachLayer`: only features whose
`geometry.type === 'LineString'` are examined at all (`App.tsx` line 322). -/
def classifyFeature (md : ImageMetadata) (data : List ℕ) (f : Feature) :
    Option Outcome :=
  if f.geomType = "LineString" then
    some (classifyVertices md data f.points false)
  else
    none

/-- The body of `roadsLayer.eachLayer` (`App.tsx` lines 321–377): push an
`InHazard` feature onto `affectedRoadsList`, else push a `NearHazard`
feature onto `nearFloodRoadsList`, else leave both lists unchanged. -/
def impactStep (md : ImageMetadata) (data : List ℕ)
    (acc : List Feature × List Feature) (f : Feature) :
    List Feature × List Feature :=
  match classifyFeature md data f with
  | some .inHazard => (acc.1 ++ [f], acc.2)
  | some .nearHazard => (acc.1, acc.2 ++ [f])
  | _ => acc

/-- `analyzeRoadImpact` (`App.tsx` lines 309–385): walk the features in
order, accumulating `(affectedRoadsList, nearFloodRoadsList)`. -/
def analyzeRoadImpact (md : ImageMetadata) (data : List ℕ)
    (roads : List Feature) : List Feature × List Feature :=
  roads.foldl (impactStep md data) ([], [])

/-- Result of `calculateFloodArea`: either the "Cannot calculate (invalid
data)" branch for a scalar band, or the numeric km² value that is formatted
into `floodAreaDisplay`. -/
inductive AreaResult where
  | invalidData
  | ok (km2 : ℚ)
  deriving DecidableEq, Repr

/-- The flood-pixel counting loop of `calculateFloodArea`
(`App.tsx` lines 403–406): `if (bandData[i] === 1) floodPixelCount++`. -/
def countFloodPixels : List ℚ → ℕ
  | [] => 0
  | x :: xs => (if x = 1 then 1 else 0) + countFloodPixels xs

/-- `calculateFloodArea` (`App.tsx` lines 388–422): count pixels equal to 1,
take `pixelArea = Math.abs(resolution[0] * resolution[1])` — the code's own
comment says "assuming projected CRS"; there is no branch on the CRS label —
and return `floodPixelCount * pixelArea / 1_000_000`. -/
def calculateFloodArea (md : ImageMetadata) (band : BandData) : AreaResult :=
  match band with
  | .scalar _ => .invalidData
  | .arr xs =>
    let floodPixelCount : ℕ := countFloodPixels xs
    let pixelArea : ℚ := |md.resX * md.resY|
    let totalFloodArea : ℚ := floodPixelCount * pixelArea
    .ok (totalFloodArea / 1000000)

/-! ## Definitions taken from the specification's wording

These are NOT translations of the source; they transcribe what the spec
claims the code does, so that the claims comparing spec to code can be
stated and, where they fail, refuted. -/

/-- Modelled from the spec (claim C2's wording): the near-hazard search as
the spec describes it — a square neighborhood of radius `B`, where an offset
pixel contributes only when its two-dimensional coordinates are in bounds
(`0 ≤ x < W` and `0 ≤ y < H`) and the mask there is hazard-present. -/
def specNearSearch (B : ℕ) (md : ImageMetadata) (data : List ℕ)
    (px py : ℤ) : Bool :=
  ((List.range (2 * B + 1)).map fun i => (i : ℤ) - B).any fun dx =>
    ((List.range (2 * B + 1)).map fun i => (i : ℤ) - B).any fun dy =>
      let x := px + dx
      let y := py + dy
      decide (0 ≤ x) && decide (x < (md.width : ℤ)) &&
      decide (0 ≤ y) && decide (y < (md.height : ℤ)) &&
      decide (data.getD (y * (md.width : ℤ) + x).toNat 0 = 1)

/-- Modelled from the spec (claim C1's wording):
`metersPerDegLat(φ) = 111132.954 − 559.822·cos(2φ) + 1.175·cos(4φ)`,
`φ` in radians. -/
noncomputable def specMetersPerDegLat (phi : ℝ) : ℝ :=
  111132.954 - 559.822 * Real.cos (2 * phi) + 1.175 * Real.cos (4 * phi)

/-- Modelled from the spec (claim C1's wording):
`metersPerDegLon(φ) = (π/180) · R_earth · cos(φ)` with `R_earth = 6378137` m. -/
noncomputable def specMetersPerDegLon (phi : ℝ) : ℝ :=
  Real.pi / 180 * 6378137 * Real.cos phi

/-- Modelled from the spec (claim C1's wording): pixel area in m² for a
geographic (degree-based) CRS, evaluated at the bounding box's vertical
midpoint latitude `φ_mid = (minY + maxY)/2` (degrees, converted to radians
for the cosine-based approximations). -/
noncomputable def specGeoPixelArea (md : ImageMetadata) : ℝ :=
  let phiMid : ℝ := (((md.minY + md.maxY) / 2 : ℚ) : ℝ) * Real.pi / 180
  |(md.resX : ℝ)| * specMetersPerDegLon phiMid *
    (|(md.resY : ℝ)| * specMetersPerDegLat phiMid)

/-- Modelled from the spec (claim C1's wording): total hazard area in km²
for a geographic CRS — `N · pixelArea / 1_000_000`. -/
noncomputable def specGeoFloodArea (md : ImageMetadata) (xs : List ℚ) : ℝ :=
  (countFloodPixels xs : ℝ) * specGeoPixelArea md / 1000000

/-! ## Helper lemmas -/

/-- The fold underlying `analyzeRoadImpact`, characterised on an arbitrary
accumulator: the two output lists are the input filtered by classification
outcome, appended to the accumulator. -/
theorem foldl_impactStep_eq (md : ImageMetadata) (data : List ℕ) :
    ∀ (roads : List Feature) (acc : List Feature × List Feature),
      roads.foldl (impactStep md data) acc =
        (acc.1 ++ roads.filter
            (fun f => decide (classifyFeature md data f = some .inHazard)),
         acc.2 ++ roads.filter
            (fun f => decide (classifyFeature md data f = some .nearHazard)))
  | [], acc => by simp
  | f :: fs, acc => by
    rw [List.foldl_cons, foldl_impactStep_eq md data fs]
    rcases h : classifyFeature md data f with _ | o
    · simp [impactStep, h, List.filter_cons]
    · cases o <;> simp [impactStep, h, List.filter_cons]

/-- `analyzeRoadImpact` returns exactly the features classified `InHazard`
and exactly those classified `NearHazard`, in input order. -/
theorem analyzeRoadImpact_eq (md : ImageMetadata) (data : List ℕ)
    (roads : List Feature) :
    analyzeRoadImpact md data roads =
      (roads.filter
          (fun f => decide (classifyFeature md data f = some .inHazard)),
       roads.filter
          (fun f => decide (classifyFeature md data f = some .nearHazard))) := by
  rw [analyzeRoadImpact, foldl_impactStep_eq]
  simp

/-- The counting loop of `calculateFloodArea` counts exactly the elements
equal to `1`. -/
theorem countFloodPixels_eq (xs : List ℚ) :
    countFloodPixels xs = (xs.filter fun x => decide (x = 1)).length := by
  induction xs with
  | nil => rfl
  | cons x xs ih =>
    by_cases h : x = 1 <;>
      simp [countFloodPixels, List.filter_cons, h, ih, Nat.add_comm]

/-- With a degenerate bounding box every vertex is either skipped by the
`floodBounds.contains` test or falls into the `NaN` path, so the vertex loop
leaves the accumulated state unchanged. -/
theorem classifyVertices_degenerate (md : ImageMetadata) (data : List ℕ)
    (hd : degenerateBounds md = true) :
    ∀ (pts : List GeoPoint) (near : Bool),
      classifyVertices md data pts near =
        if near then .nearHazard else .unaffected
  | [], _ => rfl
  | p :: ps, near => by
    cases hc : containsPoint md p <;>
      simp [classifyVertices, hc, hd, classifyVertices_degenerate md data hd ps]

/-- A point whose mapped pixel coordinates land inside `[0,W) × [0,H)` is
necessarily inside the (inclusive) flood bounds, so the
`floodBounds.contains` pre-filter never skips such a vertex. -/
theorem containsPoint_of_pixel_inbounds (md : ImageMetadata) (p : GeoPoint)
    (hx : md.minX < md.maxX) (hy : md.minY < md.maxY)
    (h1 : 0 ≤ pixelX md p) (h2 : pixelX md p < (md.width : ℤ))
    (h3 : 0 ≤ pixelY md p) (h4 : pixelY md p < (md.height : ℤ)) :
    containsPoint md p = true := by
  have hW : (0 : ℤ) < (md.width : ℤ) := lt_of_le_of_lt h1 h2
  have hH : (0 : ℤ) < (md.height : ℤ) := lt_of_le_of_lt h3 h4
  have hWQ : (0 : ℚ) < (md.width : ℚ) := by exact_mod_cast hW
  have hHQ : (0 : ℚ) < (md.height : ℚ) := by exact_mod_cast hH
  have hdx : (0 : ℚ) < md.maxX - md.minX := by linarith
  have hdy : (0 : ℚ) < md.maxY - md.minY := by linarith
  rw [pixelX] at h1 h2
  rw [pixelY] at h3 h4
  have hrW0 : (0 : ℚ) ≤ (p.lng - md.minX) / (md.maxX - md.minX) * md.width :=
    Int.floor_nonneg.mp h1
  have hrW1 : (p.lng - md.minX) / (md.maxX - md.minX) * md.width <
      (md.width : ℚ) := by exact_mod_cast Int.floor_lt.mp h2
  have hsH0 : (0 : ℚ) ≤
      (1 - (p.lat - md.minY) / (md.maxY - md.minY)) * md.height :=
    Int.floor_nonneg.mp h3
  have hsH1 : (1 - (p.lat - md.minY) / (md.maxY - md.minY)) * md.height <
      (md.height : ℚ) := by exact_mod_cast Int.floor_lt.mp h4
  have hr0 : (0 : ℚ) ≤ (p.lng - md.minX) / (md.maxX - md.minX) := by
    by_contra hcon
    push_neg at hcon
    nlinarith
  have hr1 : (p.lng - md.minX) / (md.maxX - md.minX) < 1 := by
    by_contra hcon
    push_neg at hcon
    nlinarith
  have hs0 : (0 : ℚ) < (p.lat - md.minY) / (md.maxY - md.minY) := by
    by_contra hcon
    push_neg at hcon
    nlinarith
  have hs1 : (p.lat - md.minY) / (md.maxY - md.minY) ≤ 1 := by
    by_contra hcon
    push_neg at hcon
    nlinarith
  have hlng0 : md.minX ≤ p.lng := by
    have := mul_nonneg hr0 hdx.le
    rw [div_mul_cancel₀ _ hdx.ne'] at this
    linarith
  have hlng1 : p.lng ≤ md.maxX := by
    have := mul_lt_mul_of_pos_right hr1 hdx
    rw [div_mul_cancel₀ _ hdx.ne', one_mul] at this
    linarith
  have hlat0 : md.minY ≤ p.lat := by
    have := mul_pos hs0 hdy
    rw [div_mul_cancel₀ _ hdy.ne'] at this
    linarith
  have hlat1 : p.lat ≤ md.maxY := by
    have := mul_le_mul_of_nonneg_right hs1 hdy.le
    rw [div_mul_cancel₀ _ hdy.ne', one_mul] at this
    linarith
  simp only [containsPoint, Bool.and_eq_true, decide_eq_true_eq]
  exact ⟨⟨⟨hlng0, hlng1⟩, hlat0⟩, hlat1⟩

/-- A two-dimensionally in-bounds pixel coordinate has an in-range flat
index in a row-major buffer of length `W · H`. -/
theorem flat_index_inbounds (W H : ℕ) (px py : ℤ)
    (h1 : 0 ≤ px) (h2 : px < (W : ℤ)) (h3 : 0 ≤ py) (h4 : py < (H : ℤ)) :
    0 ≤ py * (W : ℤ) + px ∧ py * (W : ℤ) + px < ((W * H : ℕ) : ℤ) := by
  have hW0 : (0 : ℤ) ≤ (W : ℤ) := by positivity
  have hstep : (py + 1) * (W : ℤ) ≤ (H : ℤ) * (W : ℤ) :=
    mul_le_mul_of_nonneg_right (by omega) hW0
  constructor
  · exact add_nonneg (mul_nonneg h3 hW0) h1
  · push_cast
    nlinarith

/-- If some vertex of the list is contained in the bounds, the box is not
degenerate, and the vertex's direct pixel probe succeeds, then the vertex
loop returns `InHazard` whatever the accumulated near-flag is. -/
theorem classifyVertices_inHazard_of_mem (md : ImageMetadata)
    (data : List ℕ) {p : GeoPoint}
    (hc : containsPoint md p = true) (hd : degenerateBounds md = false)
    (hh : checkNearby md data (pixelX md p) (pixelY md p) = true) :
    ∀ (pts : List GeoPoint), p ∈ pts → ∀ (near : Bool),
      classifyVertices md data pts near = .inHazard
  | q :: qs, hmem, near => by
    rcases List.mem_cons.mp hmem with rfl | hmem'
    · simp [classifyVertices, hc, hd, hh]
    · cases hcq : containsPoint md q with
      | false =>
        simpa [classifyVertices, hcq] using
          classifyVertices_inHazard_of_mem md data hc hd hh qs hmem' near
      | true =>
        simp only [classifyVertices, hcq, hd, Bool.not_true,
          Bool.false_eq_true, if_false]
        split
        · rfl
        · exact classifyVertices_inHazard_of_mem md data hc hd hh qs hmem' _

/-- `getD` after a `map`, at an index inside the list. -/
theorem getD_map_eq (f : ℚ → ℕ) :
    ∀ (xs : List ℚ) (i : ℕ), i < xs.length →
      (xs.map f).getD i 0 = f (xs.getD i 0)
  | _ :: _, 0, _ => rfl
  | _ :: xs, i + 1, h => getD_map_eq f xs i (by simpa using h)

/-- A strict bounding box is not `degenerateBounds`. -/
theorem degenerateBounds_false (md : ImageMetadata)
    (hx : md.minX < md.maxX) (hy : md.minY < md.maxY) :
    degenerateBounds md = false := by
  simp [degenerateBounds, hx.ne', hy.ne']

/-- `checkNearby` with its flat index spelled out. -/
theorem checkNearby_eq (md : ImageMetadata) (data : List ℕ) (x y : ℤ) :
    checkNearby md data x y =
      (decide (0 ≤ y * (md.width : ℤ) + x) &&
       decide (y * (md.width : ℤ) + x < (data.length : ℤ)) &&
       decide (data.getD (y * (md.width : ℤ) + x).toNat 0 = 1)) := rfl

/-- The scan offset list, evaluated. -/
theorem offsetRange_eq :
    offsetRange = [-5, -4, -3, -2, -1, 0, 1, 2, 3, 4, 5] := by decide

/-- Membership in the scan offset list is exactly `|d| ≤ 5`. -/
theorem mem_offsetRange {d : ℤ} : d ∈ offsetRange ↔ |d| ≤ 5 := by
  rw [offsetRange_eq, abs_le]
  simp only [List.mem_cons, List.not_mem_nil, or_false]
  omega

/-! ## Claim theorems -/

/-- C6: for every geographic point and every mask with non-degenerate
bounds, the coordinate mapper computes
`pixelX = ⌊(lon − minX) / (maxX − minX) · W⌋` and
`pixelY = ⌊(1 − (lat − minY) / (maxY − minY)) · H⌋`; latitude is inverted:
a point on the maximum-latitude edge maps to row 0, and the row index is
antitone in latitude. -/
theorem C6_pixel_mapping (md : ImageMetadata) (p : GeoPoint)
    (_hx : md.minX < md.maxX) (hy : md.minY < md.maxY) :
    pixelX md p = ⌊(p.lng - md.minX) / (md.maxX - md.minX) * md.width⌋ ∧
    pixelY md p =
      ⌊(1 - (p.lat - md.minY) / (md.maxY - md.minY)) * md.height⌋ ∧
    (p.lat = md.maxY → pixelY md p = 0) ∧
    (∀ q : GeoPoint, p.lat ≤ q.lat → pixelY md q ≤ pixelY md p) := by
  have hdy : (0 : ℚ) < md.maxY - md.minY := by linarith
  refine ⟨rfl, rfl, ?_, ?_⟩
  · intro hp
    rw [pixelY, hp, div_self hdy.ne']
    norm_num
  · intro q hq
    apply Int.floor_le_floor
    have hmono : (p.lat - md.minY) / (md.maxY - md.minY) ≤
        (q.lat - md.minY) / (md.maxY - md.minY) :=
      (div_le_div_iff_of_pos_right hdy).mpr (by linarith)
    have hH : (0 : ℚ) ≤ (md.height : ℚ) := by positivity
    nlinarith

/-- C7: a vertex that maps to a two-dimensionally in-bounds hazard-present
pixel makes the whole feature `InHazard`; the result does not depend on the
vertices after that one (they are never examined), and it does not depend on
any `NearHazard` evidence accumulated before it, so `InHazard` dominates
`NearHazard` and is never downgraded. -/
theorem C7_in_hazard_dominates (md : ImageMetadata) (data : List ℕ)
    (p : GeoPoint) (vs ws : List GeoPoint) (n : ℕ)
    (hx : md.minX < md.maxX) (hy : md.minY < md.maxY)
    (hlen : data.length = md.width * md.height)
    (h1 : 0 ≤ pixelX md p) (h2 : pixelX md p < (md.width : ℤ))
    (h3 : 0 ≤ pixelY md p) (h4 : pixelY md p < (md.height : ℤ))
    (hval : data.getD
        (pixelY md p * (md.width : ℤ) + pixelX md p).toNat 0 = 1) :
    classifyFeature md data ⟨n, "LineString", vs ++ p :: ws⟩ =
        some .inHazard ∧
    ∀ (ws' : List GeoPoint) (near : Bool),
      classifyVertices md data (vs ++ p :: ws) near =
        classifyVertices md data (vs ++ p :: ws') near := by
  have hd : degenerateBounds md = false := degenerateBounds_false md hx hy
  have hc : containsPoint md p = true :=
    containsPoint_of_pixel_inbounds md p hx hy h1 h2 h3 h4
  have hflat := flat_index_inbounds md.width md.height
    (pixelX md p) (pixelY md p) h1 h2 h3 h4
  have hh : checkNearby md data (pixelX md p) (pixelY md p) = true := by
    simp only [checkNearby, Bool.and_eq_true, decide_eq_true_eq]
    refine ⟨⟨hflat.1, ?_⟩, hval⟩
    rw [hlen]
    exact_mod_cast hflat.2
  have hmem : p ∈ vs ++ p :: ws := by simp
  constructor
  · have hcl := classifyVertices_inHazard_of_mem md data hc hd hh _ hmem false
    simp [classifyFeature, hcl]
  · intro ws' near
    rw [classifyVertices_inHazard_of_mem md data hc hd hh _ hmem,
      classifyVertices_inHazard_of_mem md data hc hd hh _ (by simp)]

/-- C8: the decoder maps every band-0 element of a non-scalar buffer to a
boolean by exact equality with 1: the decoded cell is hazard-present (1)
precisely when the raw value equals 1, and any other value — 0, nodata, or
a fractional confidence value — decodes to hazard-absent (0). -/
theorem C8_exact_threshold (xs : List ℚ) (i : ℕ) (hi : i < xs.length) :
    ∃ m : List ℕ, decodeFloodMask (.arr xs) = some m ∧
      (m.getD i 0 = 1 ↔ xs.getD i 0 = 1) ∧
      (xs.getD i 0 ≠ 1 → m.getD i 0 = 0) := by
  refine ⟨_, rfl, ?_, ?_⟩ <;>
    rw [getD_map_eq _ xs i hi]
  · by_cases h : xs.getD i 0 = 1
    · simp [h]
    · rw [if_neg h]
      exact iff_of_false (by norm_num) h
  · intro h
    rw [if_neg h]

/-- C9: the affected (`InHazard`) list and the near-flood (`NearHazard`)
list produced by one classification run are disjoint — every feature
receives at most one outcome. -/
theorem C9_disjoint_outcomes (md : ImageMetadata) (data : List ℕ)
    (roads : List Feature) (f : Feature)
    (h : f ∈ (analyzeRoadImpact md data roads).1) :
    f ∉ (analyzeRoadImpact md data roads).2 := by
  rw [analyzeRoadImpact_eq] at h ⊢
  simp only [List.mem_filter, decide_eq_true_eq] at h ⊢
  intro h2
  rw [h.2] at h2
  simp at h2

/-- C10: a feature whose geometry type is not `LineString` is ignored
entirely: it appears in neither output list, and deleting it from the input
leaves the whole classification result unchanged, whatever its
coordinates. -/
theorem C10_non_linestring_ignored (md : ImageMetadata) (data : List ℕ)
    (roads : List Feature) (f : Feature)
    (hf : f.geomType ≠ "LineString") :
    (f ∉ (analyzeRoadImpact md data roads).1 ∧
     f ∉ (analyzeRoadImpact md data roads).2) ∧
    ∀ pre post : List Feature,
      analyzeRoadImpact md data (pre ++ f :: post) =
        analyzeRoadImpact md data (pre ++ post) := by
  have hclass : classifyFeature md data f = none := by
    simp [classifyFeature, hf]
  constructor
  · rw [analyzeRoadImpact_eq]
    constructor <;> simp [List.mem_filter, hclass]
  · intro pre post
    rw [analyzeRoadImpact_eq, analyzeRoadImpact_eq]
    simp [List.filter_append, List.filter_cons, hclass]

/-- C1 is refuted by the code: for a raster labelled with the geographic
reference `EPSG:4326` (resolution `(1, 1)` degrees, vertical midpoint
latitude `φ_mid = 0`, one hazard pixel), `calculateFloodArea` returns the
planar value `1·|1·1|/10⁶ = 10⁻⁶ km²`, which differs from the value the
claim's latitude-dependent formulas prescribe for a geographic CRS (about
1.23·10⁴ km² at the equator) — the code never branches on the CRS label. -/
theorem C1_counterexample :
    calculateFloodArea ⟨1, 2, 0, -1, 1, 1, "EPSG:4326", 1, 1⟩ (.arr [1]) =
        .ok (1 / 1000000) ∧
    ((1 : ℝ) / 1000000) ≠
      specGeoFloodArea ⟨1, 2, 0, -1, 1, 1, "EPSG:4326", 1, 1⟩ [1] := by
  constructor
  · simp only [calculateFloodArea, countFloodPixels]
    norm_num
  · have hpi := Real.pi_gt_three
    have harea : specGeoFloodArea ⟨1, 2, 0, -1, 1, 1, "EPSG:4326", 1, 1⟩ [1] =
        Real.pi / 180 * 6378137 * (111132.954 - 559.822 + 1.175) / 1000000 := by
      rw [specGeoFloodArea, specGeoPixelArea, specMetersPerDegLon,
        specMetersPerDegLat]
      norm_num [countFloodPixels]
    rw [harea]
    intro heq
    nlinarith [heq]

/-- C1 amended: the area estimator ignores the CRS label entirely — the
code's own comment reads "assuming projected CRS" — and for every
non-scalar band returns `N · |resX · resY| / 1 000 000` km², where `N` is
the number of band values exactly equal to 1; relabelling the CRS never
changes the result. -/
theorem C1_amended_planar_area (md : ImageMetadata) (xs : List ℚ) :
    calculateFloodArea md (.arr xs) =
      .ok (((xs.filter fun x => decide (x = 1)).length : ℚ) *
        |md.resX * md.resY| / 1000000) ∧
    ∀ crsLabel : String,
      calculateFloodArea { md with crs := crsLabel } (.arr xs) =
        calculateFloodArea md (.arr xs) := by
  constructor
  · simp only [calculateFloodArea, countFloodPixels_eq]
  · intro crsLabel
    rfl

/-- C2 is refuted by the code on both of its counts, at two concrete
inputs whose road has a single vertex with direct pixel `(0, 2)` resp.
`(0, 0)`.
First input (7×4 raster, hazard only at flat index 13 = pixel `(6, 1)`):
no in-bounds offset pixel within `|dx| ≤ 5`, `|dy| ≤ 5` of `(0, 2)` is
hazard-present — the spec-faithful search reports `false` — yet the code
marks the feature `NearHazard`, because the probe at offset
`(dx, dy) = (-1, 0)` computes flat index `2·7 + (−1) = 13`, wrapping across
the row boundary onto pixel `(6, 1)`.
Second input (4×8 raster, hazard only at pixel `(0, 7)`, which lies inside
the claimed 21×21 window of `(0, 0)` at offset `(0, 7)` and is
two-dimensionally in bounds): the spec search with radius 10 (a 21×21
window) reports `true`, yet the code classifies the feature unaffected —
its window only spans `|dx|, |dy| ≤ 5` (11×11). -/
theorem C2_counterexample :
    (pixelX ⟨7, 4, 0, 0, 7, 4, "EPSG:4326", 1, 1⟩ ⟨3/2, 1/2⟩ = 0 ∧
     pixelY ⟨7, 4, 0, 0, 7, 4, "EPSG:4326", 1, 1⟩ ⟨3/2, 1/2⟩ = 2 ∧
     analyzeRoadImpact ⟨7, 4, 0, 0, 7, 4, "EPSG:4326", 1, 1⟩
        ((List.replicate 28 0).set 13 1)
        [⟨1, "LineString", [⟨3/2, 1/2⟩]⟩] =
      ([], [⟨1, "LineString", [⟨3/2, 1/2⟩]⟩]) ∧
     specNearSearch 5 ⟨7, 4, 0, 0, 7, 4, "EPSG:4326", 1, 1⟩
        ((List.replicate 28 0).set 13 1) 0 2 = false) ∧
    (pixelX ⟨4, 8, 0, 0, 4, 8, "EPSG:4326", 1, 1⟩ ⟨15/2, 1/2⟩ = 0 ∧
     pixelY ⟨4, 8, 0, 0, 4, 8, "EPSG:4326", 1, 1⟩ ⟨15/2, 1/2⟩ = 0 ∧
     analyzeRoadImpact ⟨4, 8, 0, 0, 4, 8, "EPSG:4326", 1, 1⟩
        ((List.replicate 32 0).set 28 1)
        [⟨2, "LineString", [⟨15/2, 1/2⟩]⟩] = ([], []) ∧
     specNearSearch 10 ⟨4, 8, 0, 0, 4, 8, "EPSG:4326", 1, 1⟩
        ((List.replicate 32 0).set 28 1) 0 0 = true) := by
  constructor
  · with_unfolding_all decide
  · with_unfolding_all decide

/-- C2 amended: the near-hazard search examines the offsets
`|dx| ≤ 5`, `|dy| ≤ 5` — an 11×11 window, not 21×21 — and an offset
contributes when its flattened index `(py+dy)·W + (px+dx)` lies in
`[0, buffer length)` and the buffer holds a hazard-present value there;
the two-dimensional column coordinate is never bounds-checked on its own,
so offsets may wrap across row boundaries. -/
theorem C2_amended_near_scan :
    offsetRange.length = 11 ∧
    ∀ (md : ImageMetadata) (data : List ℕ) (px py : ℤ),
      (nearScan md data px py = true ↔
        ∃ dx dy : ℤ, |dx| ≤ 5 ∧ |dy| ≤ 5 ∧
          0 ≤ (py + dy) * (md.width : ℤ) + (px + dx) ∧
          (py + dy) * (md.width : ℤ) + (px + dx) < (data.length : ℤ) ∧
          data.getD ((py + dy) * (md.width : ℤ) + (px + dx)).toNat 0 = 1) := by
  refine ⟨rfl, ?_⟩
  intro md data px py
  rw [nearScan]
  simp only [List.any_eq_true, checkNearby_eq, Bool.and_eq_true,
    decide_eq_true_eq]
  constructor
  · rintro ⟨dx, hdx, dy, hdy, ⟨h0, h1⟩, h2⟩
    exact ⟨dx, dy, mem_offsetRange.mp hdx, mem_offsetRange.mp hdy,
      h0, h1, h2⟩
  · rintro ⟨dx, dy, hdx, hdy, h0, h1, h2⟩
    exact ⟨dx, mem_offsetRange.mpr hdx, dy, mem_offsetRange.mpr hdy,
      ⟨h0, h1⟩, h2⟩

/-- C3 is refuted by the code: on a 4×4 raster with bounds `[0,0,4,4]`, a
vertex exactly on `maxX` maps to `pixelX = 4 = W`, a two-dimensionally
out-of-bounds coordinate that the claim says must be excluded from hazard
checks; but its flat index `2·4 + 4 = 12` is inside `[0, 16)`, wraps to
pixel `(0, 3)`, and — that cell being the only hazard cell — the feature is
classified `InHazard`. -/
theorem C3_counterexample :
    pixelX ⟨4, 4, 0, 0, 4, 4, "EPSG:4326", 1, 1⟩ ⟨3/2, 4⟩ = 4 ∧
    analyzeRoadImpact ⟨4, 4, 0, 0, 4, 4, "EPSG:4326", 1, 1⟩
        ((List.replicate 16 0).set 12 1)
        [⟨3, "LineString", [⟨3/2, 4⟩]⟩] =
      ([⟨3, "LineString", [⟨3/2, 4⟩]⟩], []) := by
  with_unfolding_all decide

/-- C3 amended: the bounds check is on the flattened index
`pixelY·W + pixelX` against `[0, buffer length)`.  A probe whose flat index
is out of that range is hazard-absent and contributes to neither condition
(and the lookup is a total function — nothing throws); a vertex exactly on
`maxX` still maps to `pixelX = W`, but only its flat index decides whether
it is excluded, so it can wrap onto the next row and contribute. -/
theorem C3_amended_flat_bounds (md : ImageMetadata) (data : List ℕ)
    (x y : ℤ) (p : GeoPoint)
    (hoob : y * (md.width : ℤ) + x < 0 ∨
      (data.length : ℤ) ≤ y * (md.width : ℤ) + x)
    (hx : md.minX < md.maxX) (hlng : p.lng = md.maxX) :
    checkNearby md data x y = false ∧ pixelX md p = (md.width : ℤ) := by
  constructor
  · rw [checkNearby_eq]
    rcases hoob with h | h
    · simp [not_le.mpr h]
    · simp [not_lt.mpr h]
  · rw [pixelX, hlng, div_self (by intro h0; rw [sub_eq_zero] at h0; exact hx.ne' h0),
      one_mul]
    exact Int.floor_natCast md.width

/-- C4 is refuted by the code: with a degenerate bounding box
(`maxX = minX = 1`) and a mask whose every cell is hazard-present, the
classifier neither fails with `DegenerateBounds` nor aborts — there is no
failure value in its result type at all — it performs the degenerate
division (yielding `NaN` in JavaScript, under which every range check is
false) and completes normally, classifying the contained vertex's feature
as unaffected. -/
theorem C4_counterexample :
    analyzeRoadImpact ⟨4, 4, 1, 0, 1, 4, "Unknown", 1, 1⟩
        (List.replicate 16 1) [⟨4, "LineString", [⟨2, 1⟩]⟩] = ([], []) := by
  with_unfolding_all decide

/-- C4 amended: there is no degenerate-bounds guard.  When
`maxX = minX` or `maxY = minY` the division is performed anyway; its `NaN`
result makes every pixel probe fail, so classification completes normally
with every feature unaffected — both output lists are empty whatever the
mask and roads are. -/
theorem C4_amended_no_guard (md : ImageMetadata) (data : List ℕ)
    (roads : List Feature)
    (h : md.maxX = md.minX ∨ md.maxY = md.minY) :
    analyzeRoadImpact md data roads = ([], []) := by
  have hd : degenerateBounds md = true := by
    rcases h with h | h <;> simp [degenerateBounds, h]
  have hnone : ∀ f : Feature, classifyFeature md data f ≠ some .inHazard ∧
      classifyFeature md data f ≠ some .nearHazard := by
    intro f
    rw [classifyFeature]
    split
    · rw [classifyVertices_degenerate md data hd]
      simp
    · simp
  rw [analyzeRoadImpact_eq]
  rw [Prod.mk.injEq]
  constructor <;>
  · rw [List.filter_eq_nil_iff]
    intro f _
    simp [(hnone f).1, (hnone f).2]

/-- C5 is refuted by the code: with resolution `(0, 1)` the computed pixel
area is zero, yet `calculateFloodArea` does not fail with
`InvalidPixelArea` — no such guard exists — it returns the numeric area
`0 km²` for a mask with five hazard pixels. -/
theorem C5_counterexample :
    calculateFloodArea ⟨4, 4, 0, 0, 4, 4, "EPSG:32633", 0, 1⟩
        (.arr [1, 1, 1, 1, 1]) = .ok 0 := by
  simp only [calculateFloodArea, countFloodPixels]
  norm_num

/-- C5 amended: the estimator has no zero-area guard: whenever
`resX · resY = 0` it returns the numeric result `0 km²` for every band
array, instead of an `InvalidPixelArea` failure. -/
theorem C5_amended_zero_area (md : ImageMetadata) (xs : List ℚ)
    (h : md.resX * md.resY = 0) :
    calculateFloodArea md (.arr xs) = .ok 0 := by
  simp [calculateFloodArea, h]

/-! ## Witnesses -/

/-- Witness for the amended C3: a probe at `(x, y) = (4, 3)` on a 4×4
raster has flat index 16 = buffer length, is reported absent, and a point
on `maxX = 4` maps to `pixelX = 4`. -/
theorem C3_witness :
    checkNearby ⟨4, 4, 0, 0, 4, 4, "EPSG:4326", 1, 1⟩
        (List.replicate 16 0) 4 3 = false ∧
    pixelX ⟨4, 4, 0, 0, 4, 4, "EPSG:4326", 1, 1⟩ ⟨3/2, 4⟩ = 4 :=
  C3_amended_flat_bounds ⟨4, 4, 0, 0, 4, 4, "EPSG:4326", 1, 1⟩
    (List.replicate 16 0) 4 3 ⟨3/2, 4⟩ (Or.inr (by decide))
    (by norm_num) rfl

/-- Witness for the amended C4: a zero-height bounding box, an
all-hazard mask and a contained vertex still yield the normal empty
classification. -/
theorem C4_witness :
    analyzeRoadImpact ⟨3, 3, 0, 2, 5, 2, "Unknown", 1, 1⟩ [1, 1, 1]
        [⟨6, "LineString", [⟨2, 1⟩]⟩] = ([], []) :=
  C4_amended_no_guard ⟨3, 3, 0, 2, 5, 2, "Unknown", 1, 1⟩ [1, 1, 1]
    [⟨6, "LineString", [⟨2, 1⟩]⟩] (Or.inr rfl)

/-- Witness for the amended C5: resolution `(1, 0)` yields the numeric
area 0 rather than a failure. -/
theorem C5_witness :
    calculateFloodArea ⟨2, 2, 0, 0, 2, 2, "Unknown", 1, 0⟩
        (.arr [1, 0]) = .ok 0 :=
  C5_amended_zero_area ⟨2, 2, 0, 0, 2, 2, "Unknown", 1, 0⟩ [1, 0]
    (by norm_num)

/-- Witness for C6: on the 4×4 raster with bounds `[0,0,4,4]`, a point on
the maximum-latitude edge maps to raster row 0. -/
theorem C6_witness :
    pixelY ⟨4, 4, 0, 0, 4, 4, "EPSG:4326", 1, 1⟩ ⟨4, 1⟩ = 0 :=
  (C6_pixel_mapping ⟨4, 4, 0, 0, 4, 4, "EPSG:4326", 1, 1⟩ ⟨4, 1⟩
    (by norm_num) (by norm_num)).2.2.1 rfl

/-- Witness for C7: a one-vertex road whose vertex maps to the in-bounds
hazard pixel `(2, 2)` of a 4×4 mask is classified `InHazard`. -/
theorem C7_witness :
    classifyFeature ⟨4, 4, 0, 0, 4, 4, "EPSG:32633", 1, 1⟩
        ((List.replicate 16 0).set 10 1)
        ⟨5, "LineString", [⟨3/2, 5/2⟩]⟩ = some .inHazard :=
  (C7_in_hazard_dominates ⟨4, 4, 0, 0, 4, 4, "EPSG:32633", 1, 1⟩
    ((List.replicate 16 0).set 10 1) ⟨3/2, 5/2⟩ [] [] 5
    (by norm_num) (by norm_num) (by decide)
    (by with_unfolding_all decide) (by with_unfolding_all decide)
    (by with_unfolding_all decide) (by with_unfolding_all decide)
    (by with_unfolding_all decide)).1

/-- Witness for C8: in the band `[0, 1, 2, 1/2]`, the element 2 — greater
than the threshold — decodes to hazard-absent, exactly because it is not
equal to 1. -/
theorem C8_witness :
    ∃ m : List ℕ, decodeFloodMask (.arr [0, 1, 2, 1/2]) = some m ∧
      (m.getD 2 0 = 1 ↔ ([0, 1, 2, (1 : ℚ)/2]).getD 2 0 = 1) ∧
      (([0, 1, 2, (1 : ℚ)/2]).getD 2 0 ≠ 1 → m.getD 2 0 = 0) :=
  C8_exact_threshold [0, 1, 2, 1/2] 2 (by decide)

/-- Witness for C9: a feature reported in the affected list of a concrete
run is not in that run's near-flood list. -/
theorem C9_witness :
    (⟨5, "LineString", [⟨3/2, 5/2⟩]⟩ : Feature) ∉
      (analyzeRoadImpact ⟨4, 4, 0, 0, 4, 4, "EPSG:32633", 1, 1⟩
        ((List.replicate 16 0).set 10 1)
        [⟨5, "LineString", [⟨3/2, 5/2⟩]⟩]).2 :=
  C9_disjoint_outcomes ⟨4, 4, 0, 0, 4, 4, "EPSG:32633", 1, 1⟩
    ((List.replicate 16 0).set 10 1)
    [⟨5, "LineString", [⟨3/2, 5/2⟩]⟩] ⟨5, "LineString", [⟨3/2, 5/2⟩]⟩
    (by with_unfolding_all decide)

/-- Witness for C10: a `Point` feature sitting on the hazard cell is in
neither output list. -/
theorem C10_witness :
    (⟨8, "Point", [⟨3/2, 5/2⟩]⟩ : Feature) ∉
      (analyzeRoadImpact ⟨4, 4, 0, 0, 4, 4, "EPSG:32633", 1, 1⟩
        ((List.replicate 16 0).set 10 1)
        [⟨8, "Point", [⟨3/2, 5/2⟩]⟩]).1 ∧
    (⟨8, "Point", [⟨3/2, 5/2⟩]⟩ : Feature) ∉
      (analyzeRoadImpact ⟨4, 4, 0, 0, 4, 4, "EPSG:32633", 1, 1⟩
        ((List.replicate 16 0).set 10 1)
        [⟨8, "Point", [⟨3/2, 5/2⟩]⟩]).2 :=
  (C10_non_linestring_ignored ⟨4, 4, 0, 0, 4, 4, "EPSG:32633", 1, 1⟩
    ((List.replicate 16 0).set 10 1) [⟨8, "Point", [⟨3/2, 5/2⟩]⟩]
    ⟨8, "Point", [⟨3/2, 5/2⟩]⟩ (by decide)).1

end FloodDetection
